import Mathlib

/-!
Verification of the sajko-tracker client library.

This file gives a shallow embedding of the parts of the repository that the
verified properties talk about:

* the fallback `WASMBridge` (PII masking, event compaction, batch payloads);
* the `SajkoLoader` class (script injection, retry, unload, singleton);
* the module-level wrapper API (`init`, `track`, `identify`, `flush`, `stop`,
  `getMetrics`, `getSessionId`, `getVisitorId`, `isRecording`, `updateConfig`,
  `unload`);
* the Next.js server component `SajkoTracker` (cookie-based consent);
* the Vue composable `useSajko`;
* the replay engine script itself (`SAJKO Session Replay V4`, the second
  document concatenated into `cdn/v4/wasm_exec.js`), at the granularity the
  wrapper observes: the recorder state, `flushEvents`/`stop`, the published
  `window.SajkoReplay` object and consent gating.

JavaScript values are embedded as the inductive `Value` (with an explicit
`vundef` constructor for `undefined`, distinct from `vnull` for `null`).
Mutation is embedded as explicit state passing; `console.log`/`console.warn`
calls are not modelled (they do not change program state).  Identity
issuance (time- and storage-based opaque session/visitor ids) is modelled
by fixed opaque constants.
-/

set_option maxHeartbeats 1000000

namespace Sajko

/-! ## JavaScript values

`Value` is the type of JSON-like JavaScript values.  Arrays and objects are
given by the mutually inductive `ValueList` and `FieldList` so that all
recursive functions below are structural (and hence kernel-computable).
Object fields are kept in insertion order, as JavaScript preserves string-key
insertion order. -/

mutual

inductive Value where
  | vnull
  | vundef
  | vbool (b : Bool)
  | vnum (n : Int)
  | vstr (s : String)
  | varr (xs : ValueList)
  | vobj (fs : FieldList)
deriving DecidableEq, Repr

inductive ValueList where
  | nil
  | cons (v : Value) (rest : ValueList)
deriving DecidableEq, Repr

inductive FieldList where
  | nil
  | cons (k : String) (v : Value) (rest : FieldList)
deriving DecidableEq, Repr

end

/-- `typeof v === 'object' && v !== null` (arrays and objects; not `null`,
which also has `typeof 'object'` in JavaScript but is excluded by the
`!== null` conjunct in the source). -/
def isObjectLike : Value → Bool
  | .varr _ => true
  | .vobj _ => true
  | _ => false

/-- `v === null || v === undefined`. -/
def isNullish : Value → Bool
  | .vnull => true
  | .vundef => true
  | _ => false

/-- Does the character list start with the given needle? -/
def charsStartWith : List Char → List Char → Bool
  | _, [] => true
  | [], _ :: _ => false
  | a :: as, b :: bs => a == b && charsStartWith as bs

/-- Does the character list contain the needle as a contiguous run?
(`[].includes` of the empty needle is `true`, as in JavaScript.) -/
def charsContain : List Char → List Char → Bool
  | [], needle => needle.isEmpty
  | a :: rest, needle => charsStartWith (a :: rest) needle || charsContain rest needle

/-- JavaScript `hay.includes(needle)`. -/
def strIncludes (hay needle : String) : Bool :=
  charsContain hay.toList needle.toList

/-! ## WASM bridge fallback (wasm-bridge stub)

Source: the IIFE defining `class WASMBridge`.  Only the methods the verified
claims are about are embedded (`maskPrivateData`, `optimizeEvents`,
`processBatch`). -/

/-- `const sensitiveFields = ['password', 'email', 'ssn', 'credit_card', 'phone']`. -/
def sensitiveFields : List String := ["password", "email", "ssn", "credit_card", "phone"]

/-- `sensitiveFields.some(field => key.toLowerCase().includes(field))`. -/
def isSensitiveKey (k : String) : Bool :=
  sensitiveFields.any fun f => charsContain (k.toList.map Char.toLower) f.toList

/-! `JSON.parse(JSON.stringify(data))` — the deep copy taken by
`maskPrivateData`.  On JSON-representable data this is the identity; its only
effect in the `Value` model is on `undefined`: object fields whose value is
`undefined` are dropped by `JSON.stringify`, `undefined` array elements
become `null`, and a top-level `undefined` makes `JSON.stringify` return
`undefined` (not a string), so that `JSON.parse` then throws. -/

mutual

/-- The JSON round-trip on a non-`undefined` value. -/
def jsonRoundTrip : Value → Value
  | .varr xs => .varr (jsonRoundTripElems xs)
  | .vobj fs => .vobj (jsonRoundTripFields fs)
  | v => v

/-- Round-trip of array elements: `undefined` elements become `null`. -/
def jsonRoundTripElems : ValueList → ValueList
  | .nil => .nil
  | .cons .vundef rest => .cons .vnull (jsonRoundTripElems rest)
  | .cons v rest => .cons (jsonRoundTrip v) (jsonRoundTripElems rest)

/-- Round-trip of object fields: `undefined`-valued fields are dropped. -/
def jsonRoundTripFields : FieldList → FieldList
  | .nil => .nil
  | .cons _ .vundef rest => jsonRoundTripFields rest
  | .cons k v rest => .cons k (jsonRoundTrip v) (jsonRoundTripFields rest)

end

/-! The in-place `maskObject` recursion of `maskPrivateData`, as a pure
function on the (already deep-copied) value.  For each own key: if the key
case-insensitively contains a sensitive name the value is replaced by the
sentinel `'[MASKED]'`; otherwise, if the value is object-like the recursion
descends into it; otherwise the value is left as it is.  `for...in` over an
array visits its index keys (never sensitive), so arrays only recurse into
object-like elements. -/

mutual

def maskObject : Value → Value
  | .vobj fs => .vobj (maskObjectFields fs)
  | .varr xs => .varr (maskObjectElems xs)
  | v => v

def maskObjectFields : FieldList → FieldList
  | .nil => .nil
  | .cons k v rest =>
    .cons k
      (if isSensitiveKey k then .vstr "[MASKED]"
       else if isObjectLike v then maskObject v else v)
      (maskObjectFields rest)

def maskObjectElems : ValueList → ValueList
  | .nil => .nil
  | .cons v rest =>
    .cons (if isObjectLike v then maskObject v else v) (maskObjectElems rest)

end

/-- `WASMBridge.maskPrivateData(data)`: deep-copies `data` through a JSON
round-trip (so the original value is never touched) and masks the copy.
`none` is the thrown `SyntaxError` of `JSON.parse(undefined)` when `data`
itself is `undefined`. -/
def maskPrivateData : Value → Option Value
  | .vundef => none
  | v => some (maskObject (jsonRoundTrip v))

/-! ### Event compaction -/

/-- An event record handed to `optimizeEvents`: a JavaScript object, kept as
its ordered field list. -/
abbrev EventFields : Type := List (String × Value)

/-- The body of the `events.map` in `WASMBridge.optimizeEvents`: the shallow
copy `{...event}` with every key whose value is `null` or `undefined`
deleted. -/
def optimizeEvent (event : EventFields) : EventFields :=
  event.filter fun kv => !isNullish kv.2

/-- `WASMBridge.optimizeEvents(events)`. -/
def optimizeEvents (events : List EventFields) : List EventFields :=
  events.map optimizeEvent

/-! ### JSON serialization (`JSON.stringify`) -/

/-- Lower-case hexadecimal digit. -/
def hexDigit (n : Nat) : Char :=
  if n < 10 then Char.ofNat (48 + n) else Char.ofNat (87 + n)

/-- JSON string escaping for one character. -/
def escapeJsonChar (c : Char) : List Char :=
  if c = '"' then ['\\', '"']
  else if c = '\\' then ['\\', '\\']
  else if c = '\n' then ['\\', 'n']
  else if c = '\r' then ['\\', 'r']
  else if c = '\t' then ['\\', 't']
  else if c.toNat = 8 then ['\\', 'b']
  else if c.toNat = 12 then ['\\', 'f']
  else if c.toNat < 32 then
    ['\\', 'u', '0', '0', hexDigit (c.toNat / 16), hexDigit (c.toNat % 16)]
  else [c]

/-- A JSON string literal. -/
def jsonQuote (s : String) : String :=
  "\"" ++ String.mk (List.flatten (s.toList.map escapeJsonChar)) ++ "\""

mutual

/-- `JSON.stringify` of a value in array position (`undefined` serializes
as `null` there). -/
def stringifyVal : Value → String
  | .vnull => "null"
  | .vundef => "null"
  | .vbool b => cond b "true" "false"
  | .vnum n => toString n
  | .vstr s => jsonQuote s
  | .varr xs => "[" ++ String.intercalate "," (stringifyElems xs) ++ "]"
  | .vobj fs => "\x7b" ++ String.intercalate "," (stringifyFields fs) ++ "\x7d"

def stringifyElems : ValueList → List String
  | .nil => []
  | .cons v rest => stringifyVal v :: stringifyElems rest

def stringifyFields : FieldList → List String
  | .nil => []
  | .cons _ .vundef rest => stringifyFields rest
  | .cons k v rest => (jsonQuote k ++ ":" ++ stringifyVal v) :: stringifyFields rest

end

/-- Embed an event record into `Value`. -/
def fieldsOfList : List (String × Value) → FieldList
  | [] => .nil
  | (k, v) :: rest => .cons k v (fieldsOfList rest)

/-- Embed a list of event records as a JavaScript array of objects. -/
def valueOfEvents (events : List EventFields) : Value :=
  .varr (events.foldr (fun e acc => .cons (.vobj (fieldsOfList e)) acc) .nil)

/-- The `{data, compressed}` object returned by `WASMBridge.processBatch`. -/
structure BatchPayload where
  data : String
  compressed : Bool
deriving DecidableEq, Repr

/-- `WASMBridge.processBatch(events)`: optimizes the events and returns them
JSON-serialized with `compressed: false` (compression would be done by the
real WASM module). -/
def processBatch (events : List EventFields) : BatchPayload :=
  let processed := optimizeEvents events
  { data := stringifyVal (valueOfEvents processed), compressed := false }

/-! ## Configuration and loader options (types.ts)

Optional fields are `Option`-valued; `none` stands for an absent (or
`undefined`) key.  The nested `performance`, `privacy` and `shopify`
configuration groups of `SajkoConfig` are not read by any of the embedded
operations and are omitted. -/

structure SajkoConfig where
  websiteId : String
  apiEndpoint : Option String := none
  hasUserConsent : Option Bool := none
  debug : Option Bool := none
deriving DecidableEq, Repr

structure LoaderOptions where
  cdnUrl : Option String := none
  version : Option String := none
  timeout : Option Nat := none
  retryAttempts : Option Nat := none
  retryDelay : Option Nat := none
deriving DecidableEq, Repr

/-- The loader's options after the constructor.  In the source the object
literal lists `option || default` for each field and then spreads
`...options` last, so a key present in `options` wins (with its raw value)
and the default applies exactly to absent keys. -/
structure NormalOptions where
  cdnUrl : String
  version : String
  timeout : Nat
  retryAttempts : Nat
  retryDelay : Nat
deriving DecidableEq, Repr

/-- JavaScript `s || d` on an optional string (`''` is falsy). -/
def orFalsy : Option String → String → String
  | some s, d => if s = "" then d else s
  | none, d => d

/-- JavaScript `String(b)` on a boolean. -/
def boolString (b : Bool) : String :=
  cond b "true" "false"

/-- `SajkoLoader.getDefaultCdnUrl()`: `config.apiEndpoint || 'https://app.sajko.sk'`. -/
def getDefaultCdnUrl (config : SajkoConfig) : String :=
  orFalsy config.apiEndpoint "https://app.sajko.sk"

/-- The `SajkoLoader` constructor's option normalization. -/
def normalOptions (config : SajkoConfig) (options : LoaderOptions) : NormalOptions where
  cdnUrl := options.cdnUrl.getD (getDefaultCdnUrl config)
  version := options.version.getD "v4"
  timeout := options.timeout.getD 30000
  retryAttempts := options.retryAttempts.getD 3
  retryDelay := options.retryDelay.getD 1000

/-- `SajkoLoader.getScriptUrl()`: a truthy `cdnUrl` selects the versioned
CDN path, otherwise the standard path under the API endpoint is used. -/
def getScriptUrl (config : SajkoConfig) (options : NormalOptions) : String :=
  if options.cdnUrl ≠ "" then
    options.cdnUrl ++ "/" ++ options.version ++ "/sajko-replay.min.js"
  else
    orFalsy config.apiEndpoint "https://app.sajko.sk" ++ "/sajko-replay-v4.js"

/-! ## The replay engine (`SAJKO Session Replay V4`)

The engine — the second document concatenated into `cdn/v4/wasm_exec.js` —
defines the recorder class `SajkoSessionRecorderV4`, reads its
configuration from `window.sajkoConfig` (falling back to the script
element's data attributes), and at the end of its `init()` publishes a
`window.SajkoReplay` object literal over the recorder. -/

/-- `CONFIG.hasUserConsent`: `config.hasUserConsent || false` — consent
defaults to `false` in the engine. -/
def consentOf (config : SajkoConfig) : Bool :=
  config.hasUserConsent.getD false

/-- The recorder state the wrapper can observe.  `eventQueue` is the
pending event-record queue (event records are JavaScript objects);
`wasmReady` is `this.wasmBridge && this.wasmBridge.isReady`.  The session
and visitor ids are time- and storage-based opaque strings, modelled as
fixed opaque constants. -/
structure Recorder where
  sessionId : String
  visitorId : String
  isRecording : Bool := false
  wasmReady : Bool := false
  eventQueue : List EventFields := []
deriving DecidableEq, Repr

/-- The `window.SajkoReplay` object published by the engine's `init()`: an
object literal whose `isRecording` and `sessionId` fields are value
snapshots of the recorder taken at publication time (not live getters),
whose `version` is `'4.0.0'` and `useWasm` is `true`, and whose
`start`/`stop`/`flush`/`getMetrics` methods close over the recorder
(the `recorder` field below models that captured reference).  The
published object has no `visitorId`, `trackEvent` or `identify` member. -/
structure Engine where
  isRecording : Bool
  sessionId : String
  version : String := "4.0.0"
  useWasm : Bool := true
  recorder : Recorder
deriving DecidableEq, Repr

/-- A batch received by the collector: either the bridge-compacted payload
with its event count (`sendCompressedBatch`) or the raw event array
(`sendBatch`). -/
inductive SentBatch where
  | compressed (data : String) (count : Nat)
  | plain (events : List EventFields)
deriving DecidableEq, Repr

/-- The `SajkoMetrics` shape of `getMetrics()` (types.ts / wasm_exec.js). -/
structure SajkoMetrics where
  sessionId : String
  isRecording : Bool
  queueSize : Nat
  hasWasm : Bool
deriving DecidableEq, Repr

/-- `SajkoSessionRecorderV4.getMetrics()` over the current recorder state.
(When the bridge is ready the stub's constant metrics object is also merged
into the result; those extra fields are not read by any embedded caller and
are not modelled.) -/
def recorderMetrics (r : Recorder) : SajkoMetrics where
  sessionId := r.sessionId
  isRecording := r.isRecording
  queueSize := r.eventQueue.length
  hasWasm := r.wasmReady

/-- The recorder after `new SajkoSessionRecorderV4()` plus
`await recorder.initialize()`: ids are issued in the constructor;
`initialize` returns early — no bridge, no session, no recording — when
consent is not granted (it defaults to `false`) or the website id is falsy;
otherwise the bridge comes up ready and `startRecording()` sets the
recording flag. -/
def recorderAfterInit (config : SajkoConfig) : Recorder :=
  if consentOf config ∧ config.websiteId ≠ "" then
    { sessionId := "session-fresh", visitorId := "visitor-fresh"
      isRecording := true, wasmReady := true }
  else
    { sessionId := "session-fresh", visitorId := "visitor-fresh" }

/-- The `window.SajkoReplay` literal published over a recorder. -/
def publishHandle (r : Recorder) : Engine where
  isRecording := r.isRecording
  sessionId := r.sessionId
  recorder := r

/-- The engine value published after the script executes on a page with no
previous recorder instance. -/
def freshEngine (config : SajkoConfig) : Engine :=
  publishHandle (recorderAfterInit config)

/-! ## The page world

One record holds everything outside the loader object that the embedded
code reads or writes: the `window` globals, the injected `<script>`
elements, the batches the collector has received (the observable effect of
the engine's `sendBatch`/`sendCompressedBatch` calls), and whether sends
currently reach the collector (`netOk`, the environment's network
availability). -/

/-- The `<script>` element injected by `SajkoLoader.loadScript` with its
`src` and `data-*` attributes. -/
structure ScriptTag where
  src : String
  websiteId : String
  apiEndpoint : Option String := none
  userConsent : Option String := none
  debug : Option String := none
deriving DecidableEq, Repr

structure World where
  sajkoReplay : Option Engine := none
  sajkoConfig : Option SajkoConfig := none
  recorderInstance : Option Recorder := none
  scripts : List ScriptTag := []
  delivered : List SentBatch := []
  netOk : Bool := true
deriving DecidableEq, Repr

/-- `events.slice(-10)`: the last `n` elements. -/
def takeLast (n : Nat) (l : List EventFields) : List EventFields :=
  l.drop (l.length - n)

/-- `SajkoSessionRecorderV4.flushEvents()`: returns at once on an empty
queue; otherwise the queue is drained into one batch.  When the bridge is
ready the batch goes through `processBatch` and is sent compressed-tagged
(the stub's `data` string is always non-empty, so the `result.data` guard
passes); otherwise the raw events are sent.  A send failure is caught and
re-queues only the last 10 events of the batch at the front of the queue —
the older events of the batch are dropped. -/
def flushEvents (r : Recorder) (w : World) : Recorder × World :=
  if r.eventQueue.isEmpty then (r, w)
  else
    let events := r.eventQueue
    let r1 := { r with eventQueue := [] }
    if w.netOk then
      if r.wasmReady then
        (r1, { w with delivered :=
          w.delivered ++ [.compressed (processBatch events).data events.length] })
      else
        (r1, { w with delivered := w.delivered ++ [.plain events] })
    else
      ({ r1 with eventQueue := takeLast 10 events ++ r1.eventQueue }, w)

/-- `SajkoSessionRecorderV4.stop()`: clears the recording flag and flushes
the remaining events (the observer/listener cleanup it also performs has no
observable effect in this model). -/
def recorderStop (r : Recorder) (w : World) : Recorder × World :=
  flushEvents { r with isRecording := false } w

/-! ## SajkoLoader (loader.ts) -/

/-- Errors surfaced by `init`/`load`, as an inductive so that distinct
failure messages stay distinguishable. -/
inductive LoadError where
  | websiteIdRequired
  | loadFailed (attempts : Nat)
  | replayUnavailable
deriving DecidableEq, Repr

/-- The message text each error carries in the source. -/
def errorMessage : LoadError → String
  | .websiteIdRequired => "SAJKO: websiteId is required in configuration"
  | .loadFailed n => "Failed to load SAJKO script after " ++ toString n ++ " attempts"
  | .replayUnavailable => "SajkoReplay not available after script load"

instance {ε α : Type} [DecidableEq ε] [DecidableEq α] : DecidableEq (Except ε α) :=
  fun a b =>
    match a, b with
    | .ok x, .ok y =>
      match decEq x y with
      | isTrue h => isTrue (h ▸ rfl)
      | isFalse h => isFalse fun hh => h (by cases hh; rfl)
    | .ok _, .error _ => isFalse fun h => Except.noConfusion h
    | .error _, .ok _ => isFalse fun h => Except.noConfusion h
    | .error x, .error y =>
      match decEq x y with
      | isTrue h => isTrue (h ▸ rfl)
      | isFalse h => isFalse fun hh => h (by cases hh; rfl)

/-- The mutable fields of a `SajkoLoader` object.  `scriptPromise` is
`none` while `this.scriptPromise === null`; once a load has been started it
holds the settled outcome of that load (`Except.ok` = fulfilled,
`Except.error` = rejected with that error).  The promise is never reset
outside `unload`, so a settled outcome is permanent for the page
lifetime. -/
structure LoaderState where
  config : SajkoConfig
  options : NormalOptions
  isLoaded : Bool := false
  scriptPromise : Option (Except LoadError Unit) := none
deriving DecidableEq, Repr

/-- `new SajkoLoader(config, options)`. -/
def mkLoader (config : SajkoConfig) (options : LoaderOptions) : LoaderState where
  config := config
  options := normalOptions config options

/-- `SajkoLoader.isScriptLoaded()`. -/
def isScriptLoaded (L : LoaderState) (w : World) : Bool :=
  L.isLoaded && w.sajkoReplay.isSome

/-- Outcome of one `loadScript()` call: result, updated world, fetches
issued (the injected script's URL, when a new element was appended). -/
structure ScriptOutcome where
  result : Except Unit Unit
  world : World
  fetches : List String
deriving Repr

/-- `SajkoLoader.loadScript()`.  Sets `window.sajkoConfig`, then: if a
`<script>` with the same `src` is already in the document it resolves
without fetching; otherwise it appends a new script element carrying the
config as `data-*` attributes and the outcome of the network fetch is given
by `ok` (on error/timeout the element stays in the DOM and the promise
rejects).  On success the fetched engine script executes: it bails out when
`window.__sajkoRecorderV4Instance` already exists, and otherwise creates
the recorder, stores it in that global and publishes `window.SajkoReplay`
(its dependency scripts ship with the same origin and are covered by the
same network outcome). -/
def loadScript (L : LoaderState) (w : World) (ok : Bool) : ScriptOutcome :=
  let w1 := { w with sajkoConfig := some L.config }
  let url := getScriptUrl L.config L.options
  if w1.scripts.any (fun t => t.src == url) then
    { result := .ok (), world := w1, fetches := [] }
  else
    let tag : ScriptTag :=
      { src := url
        websiteId := L.config.websiteId
        apiEndpoint := match L.config.apiEndpoint with
          | some s => if s = "" then none else some s
          | none => none
        userConsent := L.config.hasUserConsent.map boolString
        debug := L.config.debug.map boolString }
    let w2 := { w1 with scripts := w1.scripts ++ [tag] }
    if ok then
      { result := .ok ()
        world :=
          if w2.recorderInstance.isSome then w2
          else
            { w2 with
              recorderInstance := some (recorderAfterInit L.config)
              sajkoReplay := some (freshEngine L.config) }
        fetches := [url] }
    else
      { result := .error (), world := w2, fetches := [url] }

/-- Outcome of `loadWithRetry`: result, updated world, fetches issued,
number of `loadScript` attempts made, and the waits performed between
consecutive attempts. -/
structure RetryOutcome where
  result : Except LoadError Unit
  world : World
  fetches : List String
  attempts : Nat
  delays : List Nat
deriving Repr

/-- The recursion of `SajkoLoader.loadWithRetry(attempt)`.  `okF a` is the
network outcome of the `loadScript` call at attempt number `a`.  The
structural fuel `remaining` stands for `retryAttempts - attempt`, so the
source guard `attempt < retryAttempts` is `remaining ≠ 0`. -/
def loadRetryGo (L : LoaderState) (okF : Nat → Bool) (w : World) (attempt : Nat) :
    Nat → RetryOutcome
  | 0 =>
    let o := loadScript L w (okF attempt)
    match o.result with
    | .ok _ => { result := .ok (), world := o.world, fetches := o.fetches,
                 attempts := 1, delays := [] }
    | .error _ => { result := .error (.loadFailed attempt), world := o.world,
                    fetches := o.fetches, attempts := 1, delays := [] }
  | remaining + 1 =>
    let o := loadScript L w (okF attempt)
    match o.result with
    | .ok _ => { result := .ok (), world := o.world, fetches := o.fetches,
                 attempts := 1, delays := [] }
    | .error _ =>
      let r := loadRetryGo L okF o.world (attempt + 1) remaining
      { result := r.result, world := r.world, fetches := o.fetches ++ r.fetches,
        attempts := 1 + r.attempts, delays := L.options.retryDelay :: r.delays }

/-- `SajkoLoader.loadWithRetry(attempt = 1)`. -/
def loadWithRetry (L : LoaderState) (okF : Nat → Bool) (w : World) (attempt : Nat) :
    RetryOutcome :=
  loadRetryGo L okF w attempt (L.options.retryAttempts - attempt)

/-- Outcome of `SajkoLoader.load()`. -/
structure LoadOutcome where
  result : Except LoadError Engine
  loader : LoaderState
  world : World
  fetches : List String
deriving Repr

/-- `SajkoLoader.waitForReplay()`: resolves with `window.SajkoReplay` when
it is available (the polling loop is collapsed: in the sequential big-step
model the handle is either published or it is not). -/
def waitForReplay (w : World) : Except LoadError Engine :=
  match w.sajkoReplay with
  | some e => .ok e
  | none => .error .replayUnavailable

/-- `SajkoLoader.load()` (big-step, sequential).  An existing
`scriptPromise` is awaited and shared — no new fetch; otherwise, if already
loaded, the existing handle is returned; otherwise `loadWithRetry` runs and
its settled promise is cached on the loader. -/
def loaderLoad (L : LoaderState) (w : World) (okF : Nat → Bool) : LoadOutcome :=
  match L.scriptPromise with
  | some (.ok _) =>
    { result := waitForReplay w, loader := L, world := w, fetches := [] }
  | some (.error e) =>
    { result := .error e, loader := L, world := w, fetches := [] }
  | none =>
    if L.isLoaded ∧ w.sajkoReplay.isSome then
      { result := waitForReplay w, loader := L, world := w, fetches := [] }
    else
      let r := loadWithRetry L okF w 1
      match r.result with
      | .ok _ =>
        { result := waitForReplay r.world
          loader := { L with isLoaded := true, scriptPromise := some (.ok ()) }
          world := r.world, fetches := r.fetches }
      | .error e =>
        { result := .error e
          loader := { L with scriptPromise := some (.error e) }
          world := r.world, fetches := r.fetches }

/-- `SajkoLoader.updateConfig(config)`: merge the patch into the loader's
config and mirror it into `window.sajkoConfig` when that global is set. -/
structure ConfigPatch where
  websiteId : Option String := none
  apiEndpoint : Option String := none
  hasUserConsent : Option Bool := none
  debug : Option Bool := none
deriving DecidableEq, Repr

/-- `{...base, ...patch}`. -/
def applyPatch (base : SajkoConfig) (p : ConfigPatch) : SajkoConfig where
  websiteId := p.websiteId.getD base.websiteId
  apiEndpoint := match p.apiEndpoint with
    | some s => some s
    | none => base.apiEndpoint
  hasUserConsent := match p.hasUserConsent with
    | some b => some b
    | none => base.hasUserConsent
  debug := match p.debug with
    | some b => some b
    | none => base.debug

def loaderUpdateConfig (L : LoaderState) (w : World) (p : ConfigPatch) :
    LoaderState × World :=
  let L' := { L with config := applyPatch L.config p }
  match w.sajkoConfig with
  | some _ => (L', { w with sajkoConfig := some L'.config })
  | none => (L', w)

/-- `SajkoLoader.unload()` acting on the world: when
`window.SajkoReplay?.isRecording` (the published snapshot) holds, call the
handle's `stop()` — which stops and flushes the captured recorder — then
remove the injected script element whose `src` matches the current script
URL (`querySelector` finds the first match), and delete the `window`
globals (`SajkoReplay`, `sajkoConfig`, `__sajkoRecorderV4Instance`). -/
def loaderUnloadWorld (L : LoaderState) (w : World) : World :=
  let w1 := match w.sajkoReplay with
    | some e =>
      if e.isRecording then
        let (r', wx) := recorderStop e.recorder w
        { wx with
          sajkoReplay := some { e with recorder := r' }
          recorderInstance := match wx.recorderInstance with
            | some _ => some r'
            | none => none }
      else w
    | none => w
  let url := getScriptUrl L.config L.options
  let w2 := { w1 with
    scripts := w1.scripts.eraseP (fun t => t.src == url) }
  { w2 with sajkoReplay := none, sajkoConfig := none, recorderInstance := none }

/-! ## Module-level wrapper API (index.ts of the core package)

`sajkoInstance` and `loaderInstance` are the two module-level variables;
`loaderSingleton` is the static `SajkoLoader.instance`.  In the running
program `loaderInstance` and `loaderSingleton` are two references to one
loader object, so every mutation of the loader is written to both fields
here; the same holds for `sajkoInstance` and `window.SajkoReplay`, which
reference one engine object. -/

structure ModuleState where
  sajkoInstance : Option Engine := none
  loaderInstance : Option LoaderState := none
  loaderSingleton : Option LoaderState := none
  world : World := {}
deriving DecidableEq, Repr

/-- `SajkoLoader.getInstance(config, options)`: create the singleton on
first use; later calls return the existing loader and ignore the new
arguments. -/
def getInstance (st : ModuleState) (config : SajkoConfig) (options : LoaderOptions) :
    LoaderState × ModuleState :=
  match st.loaderSingleton with
  | some L => (L, st)
  | none =>
    let L := mkLoader config options
    (L, { st with loaderSingleton := some L })

/-- The guard `sajkoInstance && loaderInstance?.isScriptLoaded()` at the
top of `init`: the engine returned when already set up. -/
def existingInstance (st : ModuleState) : Option Engine :=
  match st.sajkoInstance, st.loaderInstance with
  | some e, some L => if isScriptLoaded L st.world then some e else none
  | _, _ => none

/-- Outcome of `init`. -/
structure InitOutcome where
  result : Except LoadError Engine
  state : ModuleState
  fetches : List String
deriving Repr

/-- `init(config, options)` (big-step, sequential).  Returns the existing
instance when already set up; throws when `config.websiteId` is falsy;
otherwise obtains the singleton loader and awaits `load()`.  On a load
failure the module variable `sajkoInstance` keeps its previous value. -/
def init (st : ModuleState) (config : SajkoConfig) (options : LoaderOptions)
    (okF : Nat → Bool) : InitOutcome :=
  match existingInstance st with
  | some e => { result := .ok e, state := st, fetches := [] }
  | none =>
    if config.websiteId = "" then
      { result := .error .websiteIdRequired, state := st, fetches := [] }
    else
      let (L, st1) := getInstance st config options
      let st2 := { st1 with loaderInstance := some L }
      let o := loaderLoad L st2.world okF
      let st3 := { st2 with
        loaderInstance := some o.loader
        loaderSingleton := some o.loader
        world := o.world
        sajkoInstance := match o.result with
          | .ok e => some e
          | .error _ => st2.sajkoInstance }
      { result := o.result, state := st3, fetches := o.fetches }

/-- Mirror a mutation of the shared recorder into every reference that
aliases it: the wrapper's engine handle (`sajkoInstance`), the published
`window.SajkoReplay` and the `window.__sajkoRecorderV4Instance` global. -/
def syncRecorder (st : ModuleState) (e : Engine) (r : Recorder) (w : World) :
    ModuleState :=
  let e' := { e with recorder := r }
  { st with
    sajkoInstance := some e'
    world := { w with
      sajkoReplay := match w.sajkoReplay with
        | some _ => some e'
        | none => none
      recorderInstance := match w.recorderInstance with
        | some _ => some r
        | none => none } }

/-- `track(event, properties)`: warns and returns when not set up; with an
instance it checks `sajkoInstance.trackEvent` — the published V4 handle
exposes no such method, so the `else` branch warns and returns as well,
and the call never reaches the recorder. -/
def track (st : ModuleState) (_event : String) (_properties : Option Value) :
    ModuleState :=
  match st.sajkoInstance with
  | none => st
  | some _ => st

/-- `identify(userId, traits)`: like `track`, the published V4 handle
exposes no `identify` method, so both branches warn and return. -/
def identify (st : ModuleState) (_userId : String) (_traits : Option Value) :
    ModuleState :=
  match st.sajkoInstance with
  | none => st
  | some _ => st

/-- `getMetrics()`: the published `getMetrics` closes over the recorder
and reports its current state. -/
def getMetrics (st : ModuleState) : Option SajkoMetrics :=
  match st.sajkoInstance with
  | none => none
  | some e => some (recorderMetrics e.recorder)

/-- `flush()`: the published `flush` is `() => recorder.flushEvents()`. -/
def flush (st : ModuleState) : ModuleState :=
  match st.sajkoInstance with
  | none => st
  | some e =>
    let (r', w') := flushEvents e.recorder st.world
    syncRecorder st e r' w'

/-- `stop()`: the published `stop` is `() => recorder.stop()`. -/
def stop (st : ModuleState) : ModuleState :=
  match st.sajkoInstance with
  | none => st
  | some e =>
    let (r', w') := recorderStop e.recorder st.world
    syncRecorder st e r' w'

/-- `getSessionId()` reads the published snapshot field. -/
def getSessionId (st : ModuleState) : Option String :=
  match st.sajkoInstance with
  | none => none
  | some e => some e.sessionId

/-- `getVisitorId()`: `sajkoInstance.visitorId || null`.  The published V4
handle has no `visitorId` member, so the read yields `undefined` and the
result is `null` whenever an instance exists at all. -/
def getVisitorId (st : ModuleState) : Option String :=
  match st.sajkoInstance with
  | none => none
  | some _ => none

/-- `isRecording()` reads the published snapshot field (a value copied at
publication time, not a live view of the recorder). -/
def isRecording (st : ModuleState) : Bool :=
  match st.sajkoInstance with
  | none => false
  | some e => e.isRecording

/-- `updateConfig(config)`: guarded by `loaderInstance`, not by
`sajkoInstance`. -/
def updateConfig (st : ModuleState) (p : ConfigPatch) : ModuleState :=
  match st.loaderInstance with
  | none => st
  | some L =>
    let (L', w') := loaderUpdateConfig L st.world p
    { st with
      loaderInstance := some L'
      loaderSingleton := match st.loaderSingleton with
        | some _ => some L'
        | none => none
      world := w' }

/-- The loader-object part of `SajkoLoader.unload()`: reset `isLoaded` and
`scriptPromise` (the static `instance` reset and the world-side cleanup are
handled by the callers below). -/
def loaderUnloadState (L : LoaderState) : LoaderState :=
  { L with isLoaded := false, scriptPromise := none }

/-- Module-level `unload()`: runs `loaderInstance.unload()` when a loader
exists (which also clears the static singleton), then nulls both module
variables. -/
def unload (st : ModuleState) : ModuleState :=
  match st.loaderInstance with
  | some L =>
    { st with
      sajkoInstance := none
      loaderInstance := none
      loaderSingleton := none
      world := loaderUnloadWorld L st.world }
  | none => { st with sajkoInstance := none, loaderInstance := none }

/-! ## Interleaved `load()` calls (small-step model for idempotence)

`load()` inspects and updates `this.scriptPromise` synchronously before its
first `await`, so even calls that overlap in time observe each other's
assignment.  The machine below records exactly that synchronous prefix:
`call` is a `load()` invocation reaching its guards, `settle ok` is the
completion of the in-flight load promise.  `startFetch` marks the call that
begins the script-load process; every other call either shares the in-flight
promise or returns the already-loaded handle. -/

inductive PromiseSt where
  | pending
  | fulfilled
  | rejectedSt
deriving DecidableEq, Repr

structure LoadMachine where
  scriptPromise : Option PromiseSt := none
  isLoaded : Bool := false
  replayPresent : Bool := false
deriving DecidableEq, Repr

inductive LoadEv where
  | call
  | settle (ok : Bool)
deriving DecidableEq, Repr

inductive LoadAct where
  | sharedAwait
  | returnExisting
  | startFetch
  | settled
deriving DecidableEq, Repr

def loadMachineStep (m : LoadMachine) : LoadEv → LoadMachine × LoadAct
  | .call =>
    match m.scriptPromise with
    | some _ => (m, .sharedAwait)
    | none =>
      if m.isLoaded && m.replayPresent then (m, .returnExisting)
      else ({ m with scriptPromise := some .pending }, .startFetch)
  | .settle ok =>
    match m.scriptPromise with
    | some .pending =>
      ({ scriptPromise := some (if ok then .fulfilled else .rejectedSt)
         isLoaded := ok || m.isLoaded
         replayPresent := ok || m.replayPresent }, .settled)
    | _ => (m, .settled)

/-- Run a sequence of interleaved events, counting the `startFetch`
actions. -/
def runLoadMachine (m : LoadMachine) : List LoadEv → LoadMachine × Nat
  | [] => (m, 0)
  | ev :: rest =>
    let (m', act) := loadMachineStep m ev
    let (m'', n) := runLoadMachine m' rest
    (m'', (if act = .startFetch then 1 else 0) + n)

/-! ## Next.js server component `SajkoTracker` (app-router.tsx) -/

/-- Props of `SajkoTracker` (the `config` override prop is the partial
config spread last into the built configuration). -/
structure SajkoTrackerProps where
  websiteId : String
  apiEndpoint : Option String := none
  debug : Option Bool := none
  config : ConfigPatch := {}
deriving DecidableEq, Repr

/-- `cookieHeader?.includes('consent=true') ?? true`. -/
def hasConsentFromCookie (cookieHeader : Option String) : Bool :=
  match cookieHeader with
  | none => true
  | some h => strIncludes h "consent=true"

/-- The `SajkoConfig` the server component builds and passes to
`SajkoScript`.  `envApi` is `process.env.NEXT_PUBLIC_SAJKO_API`;
`nodeEnvDevelopment` is `process.env.NODE_ENV === 'development'`. -/
def sajkoTrackerConfig (props : SajkoTrackerProps) (cookieHeader : Option String)
    (envApi : Option String) (nodeEnvDevelopment : Bool) : SajkoConfig :=
  let hasConsent := hasConsentFromCookie cookieHeader
  let base : SajkoConfig :=
    { websiteId := props.websiteId
      apiEndpoint := some (orFalsy props.apiEndpoint (orFalsy envApi "https://app.sajko.sk"))
      hasUserConsent := some hasConsent
      debug := some (props.debug.getD nodeEnvDevelopment) }
  applyPatch base props.config

/-! ## Vue composable `useSajko` (composables.ts) -/

/-- The `SajkoComposable` interface.  `track`/`identify` return the list of
calls they forward to the underlying tracker (so a no-op is the function
returning `[]`). -/
structure SajkoComposable where
  track : String → Option Value → List (String × Option Value)
  identify : String → Option Value → List (String × Option Value)
  getMetrics : Unit → Option SajkoMetrics
  getSessionId : Unit → Option String
  isRecording : Unit → Bool

/-- The no-op implementation returned when the plugin was not installed. -/
def noopComposable : SajkoComposable where
  track := fun _ _ => []
  identify := fun _ _ => []
  getMetrics := fun _ => none
  getSessionId := fun _ => none
  isRecording := fun _ => false

/-- `useSajko()`: `inject('sajko')` either yields the provided composable
or, after a console warning, the no-op implementation. -/
def useSajko (injected : Option SajkoComposable) : SajkoComposable :=
  match injected with
  | some s => s
  | none => noopComposable

/-! ## Claim-level predicates about masking

These state, independently of `maskObject`, what a correctly masked value
looks like, so that the masking theorems are not mere restatements of the
masking function. -/

mutual

/-- Every field at any nesting depth whose key is sensitive carries the
sentinel `'[MASKED]'`. -/
def allMasked : Value → Bool
  | .vobj fs => allMaskedFields fs
  | .varr xs => allMaskedElems xs
  | _ => true

def allMaskedFields : FieldList → Bool
  | .nil => true
  | .cons k v rest =>
    (!isSensitiveKey k || v == Value.vstr "[MASKED]") && allMasked v
      && allMaskedFields rest

def allMaskedElems : ValueList → Bool
  | .nil => true
  | .cons v rest => allMasked v && allMaskedElems rest

end

mutual

/-- `maskedRel v w`: `w` is `v` with exactly the sensitive-keyed fields
replaced by the sentinel — both sides have the same shape, every key in the
same position, sensitive keys map to `'[MASKED]'`, non-sensitive keys keep
their value unchanged when it is not object-like and recursively masked
when it is. -/
def maskedRel : Value → Value → Bool
  | .vobj fs, .vobj gs => maskedRelFields fs gs
  | .varr xs, .varr ys => maskedRelElems xs ys
  | v, w => v == w

def maskedRelFields : FieldList → FieldList → Bool
  | .nil, .nil => true
  | .cons k v fs, .cons k2 w gs =>
    k == k2 &&
    (if isSensitiveKey k then w == Value.vstr "[MASKED]"
     else if isObjectLike v then maskedRel v w else w == v) &&
    maskedRelFields fs gs
  | _, _ => false

def maskedRelElems : ValueList → ValueList → Bool
  | .nil, .nil => true
  | .cons v xs, .cons w ys =>
    (if isObjectLike v then maskedRel v w else w == v) && maskedRelElems xs ys
  | _, _ => false

end

/-! ## A concrete loaded page state

Used to exercise the unload theorems: a consented configuration, a
recording recorder with one pending click-event record, the published
handle and its aliases in place, and the injected script tag.  The `netOk`
parameter selects whether the final exit send reaches the collector. -/

def sampleRecorder : Recorder :=
  { recorderAfterInit { websiteId := "w", hasUserConsent := some true } with
    eventQueue := [[("type", Value.vstr "click")]] }

def sampleLoadedState (netOk : Bool) : ModuleState where
  sajkoInstance := some (publishHandle sampleRecorder)
  loaderInstance := some (mkLoader { websiteId := "w", hasUserConsent := some true } {})
  loaderSingleton := some (mkLoader { websiteId := "w", hasUserConsent := some true } {})
  world :=
    { sajkoReplay := some (publishHandle sampleRecorder)
      sajkoConfig := some { websiteId := "w", hasUserConsent := some true }
      recorderInstance := some sampleRecorder
      scripts := [{ src := getScriptUrl { websiteId := "w", hasUserConsent := some true }
                      (normalOptions { websiteId := "w", hasUserConsent := some true } {})
                    websiteId := "w" }]
      delivered := []
      netOk := netOk }

/-! # Theorems -/

/-! ## Helper lemmas about masking -/

theorem allMasked_of_not_objectLike (v : Value) (h : isObjectLike v = false) :
    allMasked v = true := by
  cases v <;> simp_all [isObjectLike, allMasked]

mutual

theorem allMasked_maskObject : ∀ v : Value, allMasked (maskObject v) = true
  | .vobj fs => by
    simp [maskObject, allMasked, allMaskedFields_maskObjectFields fs]
  | .varr xs => by
    simp [maskObject, allMasked, allMaskedElems_maskObjectElems xs]
  | .vnull => rfl
  | .vundef => rfl
  | .vbool _ => rfl
  | .vnum _ => rfl
  | .vstr _ => rfl

theorem allMaskedFields_maskObjectFields :
    ∀ fs : FieldList, allMaskedFields (maskObjectFields fs) = true
  | .nil => rfl
  | .cons k v rest => by
    by_cases hs : isSensitiveKey k
    · simp [maskObjectFields, allMaskedFields, hs, allMasked,
        allMaskedFields_maskObjectFields rest]
    · by_cases ho : isObjectLike v
      · simp [maskObjectFields, allMaskedFields, hs, ho, allMasked_maskObject v,
          allMaskedFields_maskObjectFields rest]
      · simp [maskObjectFields, allMaskedFields, hs, ho,
          allMasked_of_not_objectLike v (by simpa using ho),
          allMaskedFields_maskObjectFields rest]

theorem allMaskedElems_maskObjectElems :
    ∀ xs : ValueList, allMaskedElems (maskObjectElems xs) = true
  | .nil => rfl
  | .cons v rest => by
    by_cases ho : isObjectLike v
    · simp [maskObjectElems, allMaskedElems, ho, allMasked_maskObject v,
        allMaskedElems_maskObjectElems rest]
    · simp [maskObjectElems, allMaskedElems, ho,
        allMasked_of_not_objectLike v (by simpa using ho),
        allMaskedElems_maskObjectElems rest]

end

theorem maskedRel_self_of_not_objectLike (v : Value) (h : isObjectLike v = false) :
    maskedRel v v = true := by
  cases v <;> simp_all [isObjectLike, maskedRel]

mutual

theorem maskedRel_maskObject : ∀ v : Value, maskedRel v (maskObject v) = true
  | .vobj fs => by
    simp [maskObject, maskedRel, maskedRelFields_maskObjectFields fs]
  | .varr xs => by
    simp [maskObject, maskedRel, maskedRelElems_maskObjectElems xs]
  | .vnull => rfl
  | .vundef => rfl
  | .vbool _ => by simp [maskObject, maskedRel]
  | .vnum _ => by simp [maskObject, maskedRel]
  | .vstr _ => by simp [maskObject, maskedRel]

theorem maskedRelFields_maskObjectFields :
    ∀ fs : FieldList, maskedRelFields fs (maskObjectFields fs) = true
  | .nil => rfl
  | .cons k v rest => by
    by_cases hs : isSensitiveKey k
    · simp [maskObjectFields, maskedRelFields, hs,
        maskedRelFields_maskObjectFields rest]
    · by_cases ho : isObjectLike v
      · simp [maskObjectFields, maskedRelFields, hs, ho, maskedRel_maskObject v,
          maskedRelFields_maskObjectFields rest]
      · simp [maskObjectFields, maskedRelFields, hs, ho,
          maskedRelFields_maskObjectFields rest]

theorem maskedRelElems_maskObjectElems :
    ∀ xs : ValueList, maskedRelElems xs (maskObjectElems xs) = true
  | .nil => rfl
  | .cons v rest => by
    by_cases ho : isObjectLike v
    · simp [maskObjectElems, maskedRelElems, ho, maskedRel_maskObject v,
        maskedRelElems_maskObjectElems rest]
    · simp [maskObjectElems, maskedRelElems, ho,
        maskedRelElems_maskObjectElems rest]

end

/-! ## C5 — masking -/

/-- C5 counterexample.  The claim says every field with a non-sensitive key
keeps its original value; but `maskPrivateData` deep-copies through
`JSON.parse(JSON.stringify(data))`, which silently drops every object field
whose value is `undefined`.  Concretely, the record `{note: undefined}`
(whose key `note` is not sensitive) comes back as `{}` — the field is gone,
not kept. -/
theorem maskPrivateData_drops_undefined_field :
    isSensitiveKey "note" = false ∧
    maskPrivateData (.vobj (.cons "note" .vundef .nil)) = some (.vobj .nil) := by
  decide

/-- C5 (amended): for every input on which `maskPrivateData` returns (it
throws only on a top-level `undefined`), the result is the JSON round-trip
copy of the input (which drops `undefined`-valued object fields and turns
`undefined` array elements into `null`) in which, at every nesting depth,
exactly the fields whose key case-insensitively contains one of `password`,
`email`, `ssn`, `credit_card`, `phone` carry the sentinel `'[MASKED]'`, and
every surviving field with a non-sensitive key keeps its key and its value
(the value itself recursively masked when it is an object or array).  The
input value is never modified: masking operates on the deep copy, which the
purely functional embedding reflects. -/
theorem maskPrivateData_masks (v w : Value) (h : maskPrivateData v = some w) :
    allMasked w = true ∧ maskedRel (jsonRoundTrip v) w = true := by
  have hw : w = maskObject (jsonRoundTrip v) := by
    cases v <;> simp_all [maskPrivateData]
  subst hw
  exact ⟨allMasked_maskObject _, maskedRel_maskObject _⟩

/-- C5 witness: a concrete record with sensitive keys at two depths. -/
theorem maskPrivateData_masks_witness :
    allMasked (.vobj (.cons "user_email" (.vstr "[MASKED]")
      (.cons "name" (.vstr "Jo")
        (.cons "card" (.vobj (.cons "Phone" (.vstr "[MASKED]") .nil)) .nil)))) = true ∧
    maskedRel
      (jsonRoundTrip (.vobj (.cons "user_email" (.vstr "a@b.c")
        (.cons "name" (.vstr "Jo")
          (.cons "card" (.vobj (.cons "Phone" (.vnum 5) .nil)) .nil)))))
      (.vobj (.cons "user_email" (.vstr "[MASKED]")
        (.cons "name" (.vstr "Jo")
          (.cons "card" (.vobj (.cons "Phone" (.vstr "[MASKED]") .nil)) .nil)))) = true :=
  maskPrivateData_masks
    (.vobj (.cons "user_email" (.vstr "a@b.c")
      (.cons "name" (.vstr "Jo")
        (.cons "card" (.vobj (.cons "Phone" (.vnum 5) .nil)) .nil))))
    (.vobj (.cons "user_email" (.vstr "[MASKED]")
      (.cons "name" (.vstr "Jo")
        (.cons "card" (.vobj (.cons "Phone" (.vstr "[MASKED]") .nil)) .nil))))
    (by decide)

/-! ## C4 — fallback compaction -/

/-- C4: the unaccelerated `processBatch`/`optimizeEvents` is
structure-preserving: the optimized batch has the same number of events in
the same order as the input (the `i`-th output event is the optimization of
the `i`-th input event), each optimized event is a subsequence of its input
event containing exactly the fields whose value is neither `null` nor
`undefined`, and the payload is the JSON serialization of the optimized
events with `compressed = false`. -/
theorem processBatch_structure (events : List EventFields) :
    (processBatch events).compressed = false ∧
    (processBatch events).data = stringifyVal (valueOfEvents (optimizeEvents events)) ∧
    (optimizeEvents events).length = events.length ∧
    (∀ i : Nat, (optimizeEvents events)[i]? = (events[i]?).map optimizeEvent) ∧
    (∀ e : EventFields, (optimizeEvent e).Sublist e ∧
      ∀ kv : String × Value, kv ∈ optimizeEvent e ↔ kv ∈ e ∧ isNullish kv.2 = false) := by
  refine ⟨rfl, rfl, List.length_map _ _, fun i => List.getElem?_map .., fun e => ⟨?_, fun kv => ?_⟩⟩
  · exact List.filter_sublist e
  · simp [optimizeEvent, List.mem_filter]

/-! ## C8 — cookie-based consent in the Next.js server component -/

/-- C8: with no `config` override of the consent flag, `SajkoTracker` sets
`hasUserConsent` to `false` exactly when a cookie header is present and does
not contain the substring `consent=true`; with no cookie header at all the
flag defaults to `true`. -/
theorem sajkoTracker_consent_default (props : SajkoTrackerProps)
    (cookieHeader envApi : Option String) (nodeEnvDevelopment : Bool)
    (hov : props.config.hasUserConsent = none) :
    ((sajkoTrackerConfig props cookieHeader envApi nodeEnvDevelopment).hasUserConsent
        = some false ↔
      ∃ h, cookieHeader = some h ∧ strIncludes h "consent=true" = false) ∧
    (cookieHeader = none →
      (sajkoTrackerConfig props cookieHeader envApi nodeEnvDevelopment).hasUserConsent
        = some true) := by
  constructor
  · cases cookieHeader with
    | none => simp [sajkoTrackerConfig, applyPatch, hov, hasConsentFromCookie]
    | some h => simp [sajkoTrackerConfig, applyPatch, hov, hasConsentFromCookie]
  · intro hc
    subst hc
    simp [sajkoTrackerConfig, applyPatch, hov, hasConsentFromCookie]

/-- C8 witness: a cookie header without `consent=true` yields
`hasUserConsent = false`; the absent header yields `true`. -/
theorem sajkoTracker_consent_default_witness :
    (sajkoTrackerConfig { websiteId := "w" } (some "theme=dark") none false).hasUserConsent
      = some false ∧
    (sajkoTrackerConfig { websiteId := "w" } none none false).hasUserConsent
      = some true :=
  ⟨(sajkoTracker_consent_default { websiteId := "w" } (some "theme=dark") none false
      rfl).1.mpr ⟨"theme=dark", rfl, by decide⟩,
    (sajkoTracker_consent_default { websiteId := "w" } none none false rfl).2 rfl⟩

/-! ## Helper lemmas about the loader -/

theorem loadRetryGo_spec (L : LoaderState) (okF : Nat → Bool) :
    ∀ (fuel : Nat) (w : World) (a : Nat),
      (loadRetryGo L okF w a fuel).attempts ≤ fuel + 1 ∧
      (loadRetryGo L okF w a fuel).delays.length + 1 =
        (loadRetryGo L okF w a fuel).attempts ∧
      (∀ d ∈ (loadRetryGo L okF w a fuel).delays, d = L.options.retryDelay) ∧
      (∀ e, (loadRetryGo L okF w a fuel).result = .error e →
        e = .loadFailed (a + fuel) ∧
        (loadRetryGo L okF w a fuel).attempts = fuel + 1)
  | 0, w, a => by
    cases h : (loadScript L w (okF a)).result with
    | ok u => simp [loadRetryGo, h]
    | error u => simp [loadRetryGo, h]
  | fuel + 1, w, a => by
    cases h : (loadScript L w (okF a)).result with
    | ok u => simp [loadRetryGo, h]
    | error u =>
      have IH := loadRetryGo_spec L okF fuel (loadScript L w (okF a)).world (a + 1)
      obtain ⟨ih1, ih2, ih3, ih4⟩ := IH
      refine ⟨?_, ?_, ?_, ?_⟩
      · simp only [loadRetryGo, h]
        omega
      · simp only [loadRetryGo, h, List.length_cons]
        omega
      · simp only [loadRetryGo, h]
        intro d hd
        rcases List.mem_cons.mp hd with h1 | h2
        · exact h1
        · exact ih3 d h2
      · simp only [loadRetryGo, h]
        intro e he
        obtain ⟨he1, he2⟩ := ih4 e he
        constructor
        · rw [he1]
          congr 1
          omega
        · omega

/-- When the first attempt's `loadScript` resolves, `loadWithRetry` stops
after that one attempt whatever the fuel. -/
theorem loadRetryGo_first_ok (L : LoaderState) (okF : Nat → Bool) (w : World)
    (a fuel : Nat) (h : (loadScript L w (okF a)).result = .ok ()) :
    loadRetryGo L okF w a fuel =
      { result := .ok (), world := (loadScript L w (okF a)).world
        fetches := (loadScript L w (okF a)).fetches, attempts := 1, delays := [] } := by
  cases fuel <;> simp [loadRetryGo, h]

/-- Counting `startFetch` actions along a run of the load machine. -/
theorem runLoadMachine_count_le (evs : List LoadEv) :
    ∀ m : LoadMachine,
      (runLoadMachine m evs).2 ≤ if m.scriptPromise.isSome then 0 else 1 := by
  induction evs with
  | nil => intro m; simp [runLoadMachine]
  | cons ev rest ih =>
    intro m
    cases ev with
    | call =>
      cases hp : m.scriptPromise with
      | some s =>
        have := ih m
        simp only [runLoadMachine, loadMachineStep, hp] at this ⊢
        simp [hp] at this
        simpa [hp] using this
      | none =>
        by_cases hl : m.isLoaded && m.replayPresent
        · have := ih m
          simp only [runLoadMachine, loadMachineStep, hp, hl] at this ⊢
          simp_all
        · have := ih { m with scriptPromise := some .pending }
          simp only [runLoadMachine, loadMachineStep, hp, hl] at this ⊢
          simp_all
    | settle ok =>
      cases hp : m.scriptPromise with
      | some s =>
        cases s with
        | pending =>
          have := ih ({ scriptPromise := some (if ok then .fulfilled else .rejectedSt)
                        isLoaded := ok || m.isLoaded
                        replayPresent := ok || m.replayPresent } : LoadMachine)
          simp only [runLoadMachine, loadMachineStep, hp] at this ⊢
          simp_all
        | fulfilled =>
          have := ih m
          simp only [runLoadMachine, loadMachineStep, hp] at this ⊢
          simp_all
        | rejectedSt =>
          have := ih m
          simp only [runLoadMachine, loadMachineStep, hp] at this ⊢
          simp_all
      | none =>
        have := ih m
        simp only [runLoadMachine, loadMachineStep, hp] at this ⊢
        simp_all

/-! ## C2 — idempotent loading -/

/-- C2: loading is idempotent.  (1) In any interleaving of `load()` calls
and promise settlements starting from a fresh loader, at most one call
begins the script-load process: `load()` tests and assigns
`this.scriptPromise` synchronously before its first suspension point, so
concurrent callers share the single in-flight promise.  (2) A call made
after a successful load (settled promise, engine handle published) returns
the existing handle with no state change and no fetch; (3) likewise via the
`isLoaded` guard when the promise field is clear. -/
theorem load_idempotent :
    (∀ evs : List LoadEv, (runLoadMachine {} evs).2 ≤ 1) ∧
    (∀ (L : LoaderState) (w : World) (okF : Nat → Bool) (e : Engine),
      L.scriptPromise = some (.ok ()) → w.sajkoReplay = some e →
      loaderLoad L w okF =
        { result := .ok e, loader := L, world := w, fetches := [] }) ∧
    (∀ (L : LoaderState) (w : World) (okF : Nat → Bool) (e : Engine),
      L.scriptPromise = none → L.isLoaded = true → w.sajkoReplay = some e →
      loaderLoad L w okF =
        { result := .ok e, loader := L, world := w, fetches := [] }) := by
  refine ⟨fun evs => ?_, fun L w okF e h1 h2 => ?_, fun L w okF e h1 h2 h3 => ?_⟩
  · simpa using runLoadMachine_count_le evs {}
  · simp [loaderLoad, waitForReplay, h1, h2]
  · simp [loaderLoad, waitForReplay, h1, h2, h3]

/-- C2 witness: a loader whose promise has fulfilled hands back the
published engine without fetching. -/
theorem load_idempotent_witness :
    loaderLoad
      { config := { websiteId := "w" }
        options := normalOptions { websiteId := "w" } {}
        isLoaded := true
        scriptPromise := some (.ok ()) }
      { sajkoReplay := some (freshEngine { websiteId := "w" }) } (fun _ => true) =
    { result := .ok (freshEngine { websiteId := "w" })
      loader :=
        { config := { websiteId := "w" }
          options := normalOptions { websiteId := "w" } {}
          isLoaded := true
          scriptPromise := some (.ok ()) }
      world := { sajkoReplay := some (freshEngine { websiteId := "w" }) }
      fetches := [] } :=
  load_idempotent.2.1 _ _ _ _ rfl rfl

/-! ## C3 — bounded retry -/

/-- C3: for every `retryAttempts` value `n ≥ 1`, `loadWithRetry` makes at
most `n` script-load attempts, performs exactly one wait of the configured
`retryDelay` between consecutive attempts (one fewer waits than attempts),
and when it rejects it does so after the full `n` attempts with the
terminal failure; the rejected promise stays cached on the loader, so any
later `load()` call rethrows it without ever attempting again (no infinite
retry). -/
theorem loadWithRetry_bounded (L : LoaderState) (okF : Nat → Bool) (w : World)
    (hn : 1 ≤ L.options.retryAttempts) :
    (loadWithRetry L okF w 1).attempts ≤ L.options.retryAttempts ∧
    (loadWithRetry L okF w 1).delays.length + 1 = (loadWithRetry L okF w 1).attempts ∧
    (∀ d ∈ (loadWithRetry L okF w 1).delays, d = L.options.retryDelay) ∧
    (∀ e, (loadWithRetry L okF w 1).result = .error e →
      e = .loadFailed L.options.retryAttempts ∧
      (loadWithRetry L okF w 1).attempts = L.options.retryAttempts) ∧
    (∀ (L' : LoaderState) (w' : World) (e : LoadError),
      L'.scriptPromise = some (.error e) →
      loaderLoad L' w' okF =
        { result := .error e, loader := L', world := w', fetches := [] }) := by
  obtain ⟨h1, h2, h3, h4⟩ :=
    loadRetryGo_spec L okF (L.options.retryAttempts - 1) w 1
  refine ⟨?_, ?_, ?_, ?_, ?_⟩
  · unfold loadWithRetry
    omega
  · unfold loadWithRetry
    omega
  · unfold loadWithRetry
    exact h3
  · unfold loadWithRetry
    intro e he
    obtain ⟨he1, he2⟩ := h4 e he
    refine ⟨?_, by omega⟩
    rw [he1]
    congr 1
    omega
  · intro L' w' e h
    simp [loaderLoad, h]

/-- C3 witness: three failing attempts with the default options reject
after exactly `retryAttempts = 3` attempts with two waits in between. -/
theorem loadWithRetry_bounded_witness :
    (loadWithRetry (mkLoader { websiteId := "w" } {}) (fun _ => false) {} 1).attempts
      ≤ (mkLoader { websiteId := "w" } {}).options.retryAttempts ∧
    (loadWithRetry (mkLoader { websiteId := "w" } {}) (fun _ => false) {} 1).delays.length + 1
      = (loadWithRetry (mkLoader { websiteId := "w" } {}) (fun _ => false) {} 1).attempts :=
  ⟨(loadWithRetry_bounded (mkLoader { websiteId := "w" } {}) (fun _ => false) {}
      (by decide)).1,
    (loadWithRetry_bounded (mkLoader { websiteId := "w" } {}) (fun _ => false) {}
      (by decide)).2.1⟩

/-! ## C6 — missing site id is fatal -/

/-- A fresh loader's `load()` never surfaces the configuration error: its
failures are load failures or a missing engine handle. -/
theorem loaderLoad_error_not_websiteId (L : LoaderState) (w : World)
    (okF : Nat → Bool) (hL : L.scriptPromise = none) :
    (loaderLoad L w okF).result ≠ .error .websiteIdRequired := by
  obtain ⟨-, -, -, h4⟩ := loadRetryGo_spec L okF (L.options.retryAttempts - 1) w 1
  simp only [loaderLoad, hL]
  by_cases hld : L.isLoaded ∧ w.sajkoReplay.isSome
  · simp only [hld, if_true]
    unfold waitForReplay
    cases w.sajkoReplay <;> simp
  · simp only [hld, if_false]
    cases hres : (loadWithRetry L okF w 1).result with
    | ok u =>
      simp only [hres]
      unfold waitForReplay
      cases (loadWithRetry L okF w 1).world.sajkoReplay <;> simp
    | error e =>
      simp only [hres]
      have := (h4 e (by simpa [loadWithRetry] using hres)).1
      simp [this]

/-- C6: starting from a state with no existing instance and no singleton
loader, `init` with an empty (falsy) `websiteId` throws the configuration
error before creating a loader or touching the page — the state is returned
unchanged and no fetch happens; and with a non-empty `websiteId` that error
is never raised. -/
theorem init_requires_websiteId (st : ModuleState) (config : SajkoConfig)
    (options : LoaderOptions) (okF : Nat → Bool)
    (hfresh : existingInstance st = none) (hsing : st.loaderSingleton = none) :
    (config.websiteId = "" →
      init st config options okF =
        { result := .error .websiteIdRequired, state := st, fetches := [] }) ∧
    (config.websiteId ≠ "" →
      (init st config options okF).result ≠ .error .websiteIdRequired) := by
  constructor
  · intro hws
    simp [init, hfresh, hws]
  · intro hws
    simp only [init, hfresh, hws, if_false, getInstance, hsing]
    exact loaderLoad_error_not_websiteId _ _ okF rfl

/-- C6 witness: the empty `websiteId` is rejected with the untouched state;
a non-empty one never produces that error. -/
theorem init_requires_websiteId_witness :
    init {} { websiteId := "" } {} (fun _ => true) =
      { result := .error .websiteIdRequired, state := {}, fetches := [] } ∧
    (init {} { websiteId := "w" } {} (fun _ => true)).result ≠
      .error .websiteIdRequired :=
  ⟨(init_requires_websiteId {} { websiteId := "" } {} (fun _ => true) rfl rfl).1 rfl,
    (init_requires_websiteId {} { websiteId := "w" } {} (fun _ => true) rfl rfl).2
      (by decide)⟩

/-! ## C1 — consent is not checked by init/load -/

/-- C1 counterexample.  The claim says `hasUserConsent = false` prevents
any capture or network activity and is checked before the loader proceeds.
But `init` validates only `websiteId`: on a fresh state with
`hasUserConsent = some false` it still creates the loader, injects the
script element and fetches the script from the CDN — a network request —
and resolves successfully with the published handle.  (The fetched engine
then declines to record — its own `initialize()` returns early without
consent — but the network activity the claim rules out has already
happened, and no consent check exists in `init` or the loader.) -/
theorem init_fetches_despite_consent_false :
    ({ websiteId := "site-1", hasUserConsent := some false } : SajkoConfig).hasUserConsent
      = some false ∧
    (init {} { websiteId := "site-1", hasUserConsent := some false } {}
        (fun _ => true)).fetches =
      ["https://app.sajko.sk/v4/sajko-replay.min.js"] ∧
    (init {} { websiteId := "site-1", hasUserConsent := some false } {}
        (fun _ => true)).result =
      .ok (freshEngine { websiteId := "site-1", hasUserConsent := some false }) := by
  refine ⟨rfl, by decide, by decide⟩

/-- C1 (amended): `init` does not check `hasUserConsent` at all.  On any
fresh state, a config with a non-empty `websiteId` and
`hasUserConsent = some false` still leads to exactly one script fetch, and
the injected script element merely forwards the consent flag as the
`data-user-consent="false"` attribute.  Consent is enforced only inside
the fetched replay script — its `initialize()` returns early without
consent, so capture does not start — never by `init` or the loader, whose
fetch has already happened. -/
theorem init_ignores_consent (st : ModuleState) (config : SajkoConfig)
    (options : LoaderOptions) (okF : Nat → Bool)
    (hfresh : existingInstance st = none) (hsing : st.loaderSingleton = none)
    (hscripts : st.world.scripts = [])
    (hrec0 : st.world.recorderInstance = none)
    (hws : config.websiteId ≠ "") (hconsent : config.hasUserConsent = some false)
    (hok : okF 1 = true) :
    (init st config options okF).fetches =
      [getScriptUrl config (normalOptions config options)] ∧
    (init st config options okF).state.world.scripts =
      [{ src := getScriptUrl config (normalOptions config options)
         websiteId := config.websiteId
         apiEndpoint := match config.apiEndpoint with
           | some s => if s = "" then none else some s
           | none => none
         userConsent := some "false"
         debug := config.debug.map boolString }] := by
  have hscr : loadScript (mkLoader config options) st.world (okF 1) =
      { result := .ok ()
        world :=
          { st.world with
            sajkoConfig := some config
            scripts :=
              [{ src := getScriptUrl config (normalOptions config options)
                 websiteId := config.websiteId
                 apiEndpoint := match config.apiEndpoint with
                   | some s => if s = "" then none else some s
                   | none => none
                 userConsent := some "false"
                 debug := config.debug.map boolString }]
            recorderInstance := some (recorderAfterInit config)
            sajkoReplay := some (freshEngine config) }
        fetches := [getScriptUrl config (normalOptions config options)] } := by
    simp [loadScript, hscripts, hok, mkLoader, hconsent, boolString, hrec0]
  have hretry := loadRetryGo_first_ok (mkLoader config options) okF st.world 1
    ((mkLoader config options).options.retryAttempts - 1) (by rw [hscr])
  rw [hscr] at hretry
  have hload : loaderLoad (mkLoader config options) st.world okF =
      { result := .ok (freshEngine config)
        loader := { mkLoader config options with
          isLoaded := true, scriptPromise := some (.ok ()) }
        world :=
          { st.world with
            sajkoConfig := some config
            scripts :=
              [{ src := getScriptUrl config (normalOptions config options)
                 websiteId := config.websiteId
                 apiEndpoint := match config.apiEndpoint with
                   | some s => if s = "" then none else some s
                   | none => none
                 userConsent := some "false"
                 debug := config.debug.map boolString }]
            recorderInstance := some (recorderAfterInit config)
            sajkoReplay := some (freshEngine config) }
        fetches := [getScriptUrl config (normalOptions config options)] } := by
    simp [loaderLoad, mkLoader, loadWithRetry] at hretry ⊢
    rw [hretry]
    simp [waitForReplay]
  constructor
  · simp only [init, hfresh, hws, if_false, getInstance, hsing]
    rw [hload]
  · simp only [init, hfresh, hws, if_false, getInstance, hsing]
    rw [hload]

/-- C1 witness for the amended claim: a concrete fresh run with consent
denied still fetches the script once. -/
theorem init_ignores_consent_witness :
    (init {} { websiteId := "site-2", hasUserConsent := some false } {}
        (fun _ => true)).fetches =
      [getScriptUrl { websiteId := "site-2", hasUserConsent := some false }
        (normalOptions { websiteId := "site-2", hasUserConsent := some false } {})] :=
  (init_ignores_consent {} { websiteId := "site-2", hasUserConsent := some false } {}
      (fun _ => true) rfl rfl rfl rfl (by decide) rfl rfl).1

/-! ## C7 — unload and the side effects of loading -/

/-- Closed-form description of `flushEvents`. -/
theorem flushEvents_eq (r : Recorder) (w : World) :
    flushEvents r w =
      if r.eventQueue.isEmpty then (r, w)
      else if w.netOk then
        ({ r with eventQueue := [] },
          { w with delivered := w.delivered ++
            [if r.wasmReady then
                SentBatch.compressed (processBatch r.eventQueue).data
                  r.eventQueue.length
              else SentBatch.plain r.eventQueue] })
      else ({ r with eventQueue := takeLast 10 r.eventQueue }, w) := by
  unfold flushEvents
  by_cases h1 : r.eventQueue.isEmpty <;> by_cases h2 : w.netOk <;>
    by_cases h3 : r.wasmReady <;> simp [h1, h2, h3]

/-- Closed-form description of the loader's `unload()` world cleanup on a
published, recording handle. -/
theorem loaderUnloadWorld_eq (L : LoaderState) (w : World) (e : Engine)
    (he : w.sajkoReplay = some e) (hrec : e.isRecording = true) :
    loaderUnloadWorld L w =
      { w with
        sajkoReplay := none
        sajkoConfig := none
        recorderInstance := none
        scripts := w.scripts.eraseP
          (fun t => t.src == getScriptUrl L.config L.options)
        delivered :=
          if e.recorder.eventQueue.isEmpty then w.delivered
          else if w.netOk then
            w.delivered ++
              [if e.recorder.wasmReady then
                  SentBatch.compressed (processBatch e.recorder.eventQueue).data
                    e.recorder.eventQueue.length
                else SentBatch.plain e.recorder.eventQueue]
          else w.delivered } := by
  unfold loaderUnloadWorld recorderStop
  rw [he]
  simp only [hrec, if_true]
  rw [flushEvents_eq]
  by_cases h1 : e.recorder.eventQueue.isEmpty <;> by_cases h2 : w.netOk <;>
    by_cases h3 : e.recorder.wasmReady <;> simp [h1, h2, h3]

/-- C7 counterexample.  The claim says that after `unload()` pending
events have been flushed.  But the engine's `flushEvents` only *attempts*
the exit send: on a network failure it catches the error and re-queues the
last 10 events of the batch on the recorder — which unload then discards
along with the `window.__sajkoRecorderV4Instance` global.  Concretely,
unloading a recording state with one pending event and a failing network
delivers nothing: the pending event is lost, not flushed. -/
theorem unload_loses_events_on_network_failure :
    sampleRecorder.eventQueue ≠ [] ∧
    (unload (sampleLoadedState false)).world.delivered = [] ∧
    (unload (sampleLoadedState false)).world.recorderInstance = none := by
  decide

/-- C7 (amended): starting from a loaded state — a loader referenced by
the module, the published handle recording, and the script element the
load injected (whose `src` is the loader's current script URL) in the
document — `unload()` stops capture (`stop` is invoked on the recording
handle; the wrapper reports `isRecording = false` afterwards) and hands
the pending events to the delivery subsystem in one final batch, which
reaches the collector exactly when that exit send succeeds (on a network
failure `flushEvents` re-queues only the last 10 of them on the recorder,
which is then discarded: best-effort delivery with bounded loss); and it
clears all durable/global state set by loading — the injected script
element, `window.SajkoReplay`, `window.sajkoConfig`, the recorder-instance
global, the singleton loader instance and the module-level references — so
a subsequent load starts from a clean state. -/
theorem unload_reverses_side_effects (st : ModuleState) (L : LoaderState)
    (e : Engine) (tag : ScriptTag)
    (hL : st.loaderInstance = some L)
    (he : st.world.sajkoReplay = some e)
    (hrec : e.isRecording = true)
    (htag : st.world.scripts = [tag])
    (hsrc : tag.src = getScriptUrl L.config L.options) :
    (unload st).sajkoInstance = none ∧
    (unload st).loaderInstance = none ∧
    (unload st).loaderSingleton = none ∧
    (unload st).world.sajkoReplay = none ∧
    (unload st).world.sajkoConfig = none ∧
    (unload st).world.recorderInstance = none ∧
    (unload st).world.scripts = [] ∧
    isRecording (unload st) = false ∧
    (st.world.netOk = true → e.recorder.eventQueue ≠ [] →
      (unload st).world.delivered = st.world.delivered ++
        [if e.recorder.wasmReady then
            SentBatch.compressed (processBatch e.recorder.eventQueue).data
              e.recorder.eventQueue.length
          else SentBatch.plain e.recorder.eventQueue]) ∧
    (e.recorder.eventQueue = [] →
      (unload st).world.delivered = st.world.delivered) ∧
    existingInstance (unload st) = none := by
  have hst : unload st =
      { sajkoInstance := none
        loaderInstance := none
        loaderSingleton := none
        world := loaderUnloadWorld L st.world } := by
    simp [unload, hL]
  rw [hst, loaderUnloadWorld_eq L st.world e he hrec]
  refine ⟨rfl, rfl, rfl, rfl, rfl, rfl, ?_, ?_, ?_, ?_, ?_⟩
  · simp [htag, hsrc]
  · simp [isRecording]
  · intro hnet hq
    have hq' : e.recorder.eventQueue.isEmpty = false := by
      simpa using hq
    simp [hq', hnet]
  · intro hq
    simp [hq]
  · simp [existingInstance]

/-- C7 witness: with the network up, unloading the sample recording state
delivers the pending click event in one batch and clears the recorder
global and the loader singleton. -/
theorem unload_reverses_side_effects_witness :
    (unload (sampleLoadedState true)).world.delivered =
      (sampleLoadedState true).world.delivered ++
        [if sampleRecorder.wasmReady then
            SentBatch.compressed (processBatch sampleRecorder.eventQueue).data
              sampleRecorder.eventQueue.length
          else SentBatch.plain sampleRecorder.eventQueue] ∧
    (unload (sampleLoadedState true)).world.recorderInstance = none ∧
    (unload (sampleLoadedState true)).loaderSingleton = none :=
  ⟨(unload_reverses_side_effects _ _ _ _ rfl rfl rfl rfl
        rfl).2.2.2.2.2.2.2.2.1 rfl (by decide),
    (unload_reverses_side_effects _ _ _ _ rfl rfl rfl rfl rfl).2.2.2.2.2.1,
    (unload_reverses_side_effects _ _ _ _ rfl rfl rfl rfl rfl).2.2.1⟩

/-! ## C9 — totality of the wrapper API before initialization -/

/-- C9 counterexample.  The claim says that with no engine instance all of
`track`, `identify`, `flush`, `stop` and `updateConfig` change no state.
But `updateConfig` is guarded by `loaderInstance`, not by `sajkoInstance`:
in the state left behind by a failed `init` (loader created, engine never
assigned) `updateConfig` mutates the loader's configuration even though no
engine instance exists. -/
theorem updateConfig_mutates_without_engine :
    ({ loaderInstance := some (mkLoader { websiteId := "w" } {})
       loaderSingleton := some (mkLoader { websiteId := "w" } {}) } :
        ModuleState).sajkoInstance = none ∧
    updateConfig
        { loaderInstance := some (mkLoader { websiteId := "w" } {})
          loaderSingleton := some (mkLoader { websiteId := "w" } {}) }
        { debug := some true } ≠
      { loaderInstance := some (mkLoader { websiteId := "w" } {})
        loaderSingleton := some (mkLoader { websiteId := "w" } {}) } := by
  decide

/-- C9 (amended): when no engine instance exists, `track`, `identify`,
`flush` and `stop` return without throwing and change no state,
`getMetrics`, `getSessionId` and `getVisitorId` return `null`, and
`isRecording` returns `false`; `updateConfig` changes no state when no
*loader* instance exists either (its guard is the loader reference, so with
a loader but no engine it still updates the loader's configuration). -/
theorem api_total_before_init (st : ModuleState) (ev uid : String)
    (props traits : Option Value) (p : ConfigPatch)
    (h : st.sajkoInstance = none) :
    track st ev props = st ∧
    identify st uid traits = st ∧
    flush st = st ∧
    stop st = st ∧
    getMetrics st = none ∧
    getSessionId st = none ∧
    getVisitorId st = none ∧
    isRecording st = false ∧
    (st.loaderInstance = none → updateConfig st p = st) := by
  refine ⟨?_, ?_, ?_, ?_, ?_, ?_, ?_, ?_, fun h2 => ?_⟩ <;>
    simp [track, identify, flush, stop, getMetrics, getSessionId, getVisitorId,
      isRecording, updateConfig, h]
  simp [h2]

/-- C9 witness: the empty module state. -/
theorem api_total_before_init_witness :
    track {} "click" none = {} ∧
    getMetrics {} = none ∧
    isRecording {} = false ∧
    updateConfig {} { debug := some true } = {} :=
  ⟨(api_total_before_init {} "click" "u" none none { debug := some true } rfl).1,
    (api_total_before_init {} "click" "u" none none { debug := some true } rfl).2.2.2.2.1,
    (api_total_before_init {} "click" "u" none none { debug := some true } rfl).2.2.2.2.2.2.2.1,
    (api_total_before_init {} "click" "u" none none { debug := some true } rfl).2.2.2.2.2.2.2.2 rfl⟩

/-! ## C10 — Vue composable without the plugin -/

/-- C10: when the `SajkoPlugin` was not installed (`inject` yields
nothing), `useSajko` returns — without throwing, which the total embedding
reflects — the no-op implementation: `track` and `identify` forward no
calls, `getMetrics` and `getSessionId` return `null`, and `isRecording`
returns `false`. -/
theorem useSajko_noop_without_plugin :
    (∀ e p, (useSajko none).track e p = []) ∧
    (∀ u t, (useSajko none).identify u t = []) ∧
    (useSajko none).getMetrics () = none ∧
    (useSajko none).getSessionId () = none ∧
    (useSajko none).isRecording () = false :=
  ⟨fun _ _ => rfl, fun _ _ => rfl, rfl, rfl, rfl⟩

end Sajko
